import Mathlib

-- Shallow embedding of the volcano controller bootstrap (cmd/controllers/app/server.go)
-- and of the SSH job plugin (pkg/controllers/job/plugins/ssh), together with proofs of
-- the behavioural properties stated in the specification.

namespace Volcano

-- ===================================================================
-- Constants of the ssh plugin package.
-- ===================================================================

/-- Modelled from the spec: the plugin exposes a private-key keyed entry
(`id_rsa`-style); the constant declaration itself is outside the given sources. -/
def SSHPrivateKey : String := "id_rsa"

/-- Modelled from the spec: the plugin exposes a public-key keyed entry;
the constant declaration itself is outside the given sources. -/
def SSHPublicKey : String := "id_rsa.pub"

/-- Modelled from the spec: the plugin exposes an authorized-keys keyed entry
reusing the public key content; the constant declaration is outside the given sources. -/
def SSHAuthorizedKeys : String := "authorized_keys"

/-- Modelled from the spec: the plugin exposes the generated connectivity-config
text as a keyed entry; the constant declaration is outside the given sources. -/
def SSHConfig : String := "config"

/-- The canonical root SSH directory; the source's flag help text documents
"it is `/root/.ssh` by default". The constant declaration is outside the given sources. -/
def SSHAbsolutePath : String := "/root/.ssh"

/-- Modelled from the spec: relative path of the ssh material inside the mount;
the constant declaration is outside the given sources. -/
def SSHRelativePath : String := ".ssh"

/-- Modelled from the spec: the non-default mount location is
`{configMapMountPath}/{sshRelativePath}`; the declaration of `env.ConfigMapMountPath`
is outside the given sources. -/
def ConfigMapMountPath : String := "/etc/volcano"

-- ===================================================================
-- Data model (the fields of the cluster API objects that the embedded
-- code reads or writes).
-- ===================================================================

/-- Pod template spec fields consulted by the config generation. -/
structure TemplateSpec where
  hostname : String
  subdomain : String
deriving DecidableEq

/-- A task of a job: name, desired replica count (a Go `int32`, hence `Int`)
and the pod template. -/
structure TaskSpec where
  name : String
  replicas : Int
  template : TemplateSpec
deriving DecidableEq

/-- A job, flattened to the fields the embedded code touches:
`ns` stands for the namespace, `controlledResources` is the
`job.Status.ControlledResources` string map (as an association list). -/
structure Job where
  name : String
  uid : String
  ns : String
  tasks : List TaskSpec
  controlledResources : List (String × String)
deriving DecidableEq

/-- Go map read `m[k]`: the zero value `""` when the key is absent. -/
def lookupCR (m : List (String × String)) (k : String) : String :=
  match m.find? (fun p => p.1 == k) with
  | some p => p.2
  | none => ""

/-- Go map write `m[k] = v` on the association-list representation. -/
def setCR (m : List (String × String)) (k v : String) : List (String × String) :=
  if m.any (fun p => p.1 == k) then
    m.map (fun p => if p.1 == k then (k, v) else p)
  else
    m ++ [(k, v)]

/-- One keyed entry of a secret volume source (`v1.KeyToPath`). -/
structure KeyToPath where
  key : String
  path : String
deriving DecidableEq

/-- `v1.SecretVolumeSource`: the secret name, its projected items and the
default file mode (an octal `int32`). -/
structure SecretVolumeSource where
  secretName : String
  items : List KeyToPath
  defaultMode : Int
deriving DecidableEq

/-- `v1.Volume`, restricted to the secret source used here. -/
structure Volume where
  name : String
  secret : Option SecretVolumeSource
deriving DecidableEq

/-- `v1.VolumeMount`. -/
structure VolumeMount where
  mountPath : String
  subPath : String
  name : String
deriving DecidableEq

/-- A container: its name and its volume mounts. -/
structure Container where
  name : String
  volumeMounts : List VolumeMount
deriving DecidableEq

/-- A pod spec, restricted to the fields the plugin mutates. -/
structure Pod where
  volumes : List Volume
  containers : List Container
deriving DecidableEq

-- ===================================================================
-- ssh plugin (pkg/controllers/job/plugins/ssh).
-- ===================================================================

namespace ssh

/-- The ssh plugin state (`sshPlugin` struct): the raw argument list and the
two values produced by flag parsing. The external clientset is omitted. -/
structure sshPlugin where
  pluginArguments : List String
  noRoot : Bool
  sshKeyFilePath : String
deriving DecidableEq

/-- `Name()` of the ssh plugin. -/
def Name : String := "ssh"

/-- `secretName`: `fmt.Sprintf("%s-%s-%s", job.Name, job.UID, sp.Name())`. -/
def secretName (job : Job) : String :=
  job.name ++ "-" ++ job.uid ++ "-" ++ Name

/-- Modelled from the spec: `jobhelpers.MakePodName` (outside the given sources)
is the deterministic pattern combining job name, task name and replica index. -/
def makePodName (jobName taskName : String) (index : Nat) : String :=
  jobName ++ "-" ++ taskName ++ "-" ++ toString index

/-- The fixed first two lines of the generated ssh config. -/
def sshConfigHeader : String :=
  "StrictHostKeyChecking no\nUserKnownHostsFile /dev/null\n"

/-- The text appended for one replica: a `Host` line followed by a
`HostName` line mapping the hostname to `{hostname}.{subdomain}`. -/
def hostEntry (hostName subdomain : String) : String :=
  "Host " ++ hostName ++ "\n" ++ "  HostName " ++ hostName ++ "." ++ subdomain ++ "\n"

/-- The per-task replica loop of `generateSSHConfig`: `fuel` counts the remaining
iterations (starting from `int(ts.Replicas)`), `i` is the replica index. The loop
body computes the effective hostname and subdomain, appends the entry, and breaks
when the task declared an explicit hostname. -/
def taskLoop (jobName : String) (ts : TaskSpec) : String → Nat → Nat → String
  | config, 0, _ => config
  | config, fuel + 1, i =>
    let hostName :=
      if ts.template.hostname = "" then makePodName jobName ts.name i
      else ts.template.hostname
    let subdomain :=
      if ts.template.subdomain = "" then jobName else ts.template.subdomain
    let config := config ++ "Host " ++ hostName ++ "\n"
        ++ "  HostName " ++ hostName ++ "." ++ subdomain ++ "\n"
    if ts.template.hostname ≠ "" then config
    else taskLoop jobName ts config fuel (i + 1)

/-- `generateSSHConfig`: the header followed by the per-task loops, accumulating
into one string. -/
def generateSSHConfig (job : Job) : String :=
  job.tasks.foldl (fun config ts => taskLoop job.name ts config ts.replicas.toNat 0)
    sshConfigHeader

-- ===================================================================
-- Counting Host entries in a config text.
-- ===================================================================

/-- Split a character list into its lines (separator `'\n'`, a trailing
separator yielding a final empty line, as `strings.Split` would). -/
def splitLines : List Char → List (List Char)
  | [] => [[]]
  | c :: cs =>
    if c = '\n' then [] :: splitLines cs
    else
      match splitLines cs with
      | [] => [[c]]
      | l :: ls => (c :: l) :: ls

/-- Whether a line is a `Host ` directive line. -/
def isHostLine : List Char → Bool
  | 'H' :: 'o' :: 's' :: 't' :: ' ' :: _ => true
  | _ => false

/-- The number of `Host` entries of a config text: its lines starting with
`"Host "`. -/
def countHostEntries (s : String) : Nat :=
  ((splitLines s.data).filter isHostLine).length

-- ===================================================================
-- Credential generation and the job-add hook.  The nondeterministic or
-- external steps (RSA key generation, secret persistence) are inputs.
-- ===================================================================

/-- The outcome of `rsa.GenerateKey` / `ssh.NewPublicKey`: a PEM-encoded
private key and the public key in authorized-key format. -/
structure RsaKeyPair where
  privatePem : String
  publicAuthorized : String
deriving DecidableEq

/-- Environment supplying the keypair-generation outcome (the key material is
non-deterministic; generation may fail). -/
structure CryptoEnv where
  genKeyPair : Except String RsaKeyPair

/-- External secret store: `helpers.CreateSecret job kubeClients data name`. -/
structure SecretStore where
  createSecret : Job → List (String × String) → String → Except String Unit

/-- External side effects performed by `OnJobAdd`. -/
inductive Effect where
  | genRsaKey
  | createSecret (name : String)
deriving DecidableEq

/-- `generateRsaKey`: generate the keypair, then assemble the secret data map
with the private key, the public key and the generated ssh config text. -/
def generateRsaKey (env : CryptoEnv) (job : Job) :
    Except String (List (String × String)) :=
  match env.genKeyPair with
  | Except.error e => Except.error e
  | Except.ok kp =>
    Except.ok [(SSHPrivateKey, kp.privatePem), (SSHPublicKey, kp.publicAuthorized),
      (SSHConfig, generateSSHConfig job)]

/-- `OnJobAdd`: skip when the controlled-resources marker is set; otherwise
generate the key data, persist it as the deterministically named secret and,
only on success, set the marker.  The result carries the returned error (if
any), the job as left by the call, and the external effects performed. -/
def OnJobAdd (env : CryptoEnv) (store : SecretStore) (job : Job) :
    Except String Unit × Job × List Effect :=
  if lookupCR job.controlledResources ("plugin-" ++ Name) == Name then
    (Except.ok (), job, [])
  else
    match generateRsaKey env job with
    | Except.error e => (Except.error e, job, [Effect.genRsaKey])
    | Except.ok data =>
      match store.createSecret job data (secretName job) with
      | Except.error e =>
        (Except.error ("create secret for job <" ++ job.ns ++ "/" ++ job.name
            ++ "> with ssh plugin failed for " ++ e), job,
          [Effect.genRsaKey, Effect.createSecret (secretName job)])
      | Except.ok _ =>
        (Except.ok (),
          { job with
              controlledResources := setCR job.controlledResources ("plugin-" ++ Name) Name },
          [Effect.genRsaKey, Effect.createSecret (secretName job)])

-- ===================================================================
-- Pod mutation (`mountRsaKey`, `OnPodCreate`).
-- ===================================================================

/-- `mountRsaKey`: append the secret volume (four keyed items, default mode
0600, or 0755 when the mount path is not the canonical root SSH directory) to
the pod, and append one volume mount to every container. -/
def mountRsaKey (sp : sshPlugin) (pod : Pod) (job : Job) : Pod :=
  let sname := secretName job
  let mode : Int := 0o600
  let sshVolume : Volume :=
    { name := sname
      secret := some
        { secretName := sname
          items := [
            { key := SSHPrivateKey, path := SSHRelativePath ++ "/" ++ SSHPrivateKey },
            { key := SSHPublicKey, path := SSHRelativePath ++ "/" ++ SSHPublicKey },
            { key := SSHPublicKey, path := SSHRelativePath ++ "/" ++ SSHAuthorizedKeys },
            { key := SSHConfig, path := SSHRelativePath ++ "/" ++ SSHConfig }]
          defaultMode := if sp.sshKeyFilePath ≠ SSHAbsolutePath then 0o755 else mode } }
  { volumes := pod.volumes ++ [sshVolume]
    containers := pod.containers.map fun c =>
      { c with volumeMounts := c.volumeMounts ++
          [{ mountPath := sp.sshKeyFilePath, subPath := SSHRelativePath,
             name := sname }] } }

/-- `OnPodCreate`: mount the key material and unconditionally return nil. -/
def OnPodCreate (sp : sshPlugin) (pod : Pod) (job : Job) : Except String Unit × Pod :=
  (Except.ok (), mountRsaKey sp pod job)

-- ===================================================================
-- Flag parsing (`addFlags`, `New`).  `parseFlags` models the Go standard
-- `flag.FlagSet` semantics restricted to the two flags the plugin registers:
-- the boolean `no-root` and the string `ssh-key-file-path`.  On a parse
-- error the source only logs and keeps whatever was parsed so far.
-- ===================================================================

/-- `strconv.ParseBool` of the Go standard library. -/
def parseBoolStr (s : String) : Option Bool :=
  if s = "1" ∨ s = "t" ∨ s = "T" ∨ s = "true" ∨ s = "TRUE" ∨ s = "True" then
    some true
  else if s = "0" ∨ s = "f" ∨ s = "F" ∨ s = "false" ∨ s = "FALSE" ∨ s = "False" then
    some false
  else none

/-- Split a flag body at the first `=` into the flag name and its inline value. -/
def splitEq : List Char → List Char × Option (List Char)
  | [] => ([], none)
  | '=' :: cs => ([], some cs)
  | c :: cs =>
    let r := splitEq cs
    (c :: r.1, r.2)

/-- What processing one argument does to the parse state. -/
inductive FlagStep where
  | stop
  | setNoRoot (b : Bool)
  | setPathVal (v : String)
  | setPathNext
deriving DecidableEq

/-- Dispatch on a flag body (the argument with its leading dashes removed):
unknown flags, bad syntax and bad boolean values end parsing; the boolean
`no-root` never consumes the next argument, the string `ssh-key-file-path`
does when it has no inline value. -/
def classifyName (name : List Char) : FlagStep :=
  match name with
  | [] => FlagStep.stop
  | c :: _ =>
    if c = '-' ∨ c = '=' then FlagStep.stop
    else
      match splitEq name with
      | (nm, none) =>
        if nm = "no-root".data then FlagStep.setNoRoot true
        else if nm = "ssh-key-file-path".data then FlagStep.setPathNext
        else FlagStep.stop
      | (nm, some val) =>
        if nm = "no-root".data then
          match parseBoolStr (String.mk val) with
          | some b => FlagStep.setNoRoot b
          | none => FlagStep.stop
        else if nm = "ssh-key-file-path".data then FlagStep.setPathVal (String.mk val)
        else FlagStep.stop

/-- Classify one command-line argument: a `--` terminator or any non-flag
argument stops parsing; one or two leading dashes introduce a flag body. -/
def classifyArg (arg : String) : FlagStep :=
  match arg.data with
  | '-' :: '-' :: [] => FlagStep.stop
  | '-' :: '-' :: c :: cs => classifyName (c :: cs)
  | '-' :: c :: cs => classifyName (c :: cs)
  | _ => FlagStep.stop

/-- The `flag.FlagSet.Parse` loop over the plugin's argument list. -/
def parseFlags (sp : sshPlugin) : List String → sshPlugin
  | [] => sp
  | arg :: rest =>
    match classifyArg arg with
    | FlagStep.stop => sp
    | FlagStep.setNoRoot b => parseFlags { sp with noRoot := b } rest
    | FlagStep.setPathVal v => parseFlags { sp with sshKeyFilePath := v } rest
    | FlagStep.setPathNext =>
      match rest with
      | [] => sp
      | v :: rest2 => parseFlags { sp with sshKeyFilePath := v } rest2

/-- `addFlags`: parse the plugin's own argument list into its state. -/
def addFlags (sp : sshPlugin) : sshPlugin :=
  parseFlags sp sp.pluginArguments

/-- The plugin state as `New` constructs it before flag parsing: default key
file path, `noRoot` at its zero value. -/
def initialPlugin (arguments : List String) : sshPlugin :=
  { pluginArguments := arguments, noRoot := false, sshKeyFilePath := SSHAbsolutePath }

/-- `New`: build the plugin with the default key file path, parse the flags,
and move the path to `{ConfigMapMountPath}/{SSHRelativePath}` when `no-root`
was set without an explicit path override. -/
def New (arguments : List String) : sshPlugin :=
  let sp := initialPlugin arguments
  let sp := addFlags sp
  if sp.noRoot && (sp.sshKeyFilePath == SSHAbsolutePath) then
    { sp with sshKeyFilePath := ConfigMapMountPath ++ "/" ++ SSHRelativePath }
  else sp

-- ===================================================================
-- Concrete fixtures used by the witness theorems.
-- ===================================================================

/-- A task with three replicas and no explicit hostname or subdomain. -/
def sampleTaskPlain : TaskSpec :=
  { name := "t", replicas := 3, template := { hostname := "", subdomain := "" } }

/-- A task with three replicas and an explicit hostname. -/
def sampleTaskNamed : TaskSpec :=
  { name := "t", replicas := 3, template := { hostname := "h", subdomain := "" } }

/-- A job with one plain task and no controlled-resources marker. -/
def sampleJob : Job :=
  { name := "job", uid := "uid1", ns := "default",
    tasks := [sampleTaskPlain], controlledResources := [] }

/-- The same job with the ssh plugin marker already set. -/
def sampleJobMarked : Job :=
  { name := "job", uid := "uid1", ns := "default",
    tasks := [sampleTaskPlain], controlledResources := [("plugin-ssh", "ssh")] }

/-- A job with one explicitly named task. -/
def sampleJobNamed : Job :=
  { name := "job", uid := "uid1", ns := "default",
    tasks := [sampleTaskNamed], controlledResources := [] }

/-- A crypto environment whose generation succeeds. -/
def sampleCrypto : CryptoEnv :=
  { genKeyPair := Except.ok { privatePem := "PRIV", publicAuthorized := "PUB" } }

/-- A crypto environment whose generation fails. -/
def sampleCryptoFail : CryptoEnv :=
  { genKeyPair := Except.error "entropy failure" }

/-- A secret store that accepts every write. -/
def sampleStore : SecretStore :=
  { createSecret := fun _ _ _ => Except.ok () }

/-- A pod with two containers and no volumes. -/
def samplePod : Pod :=
  { volumes := [],
    containers := [{ name := "c0", volumeMounts := [] },
                   { name := "c1", volumeMounts := [] }] }

end ssh

-- ===================================================================
-- Controller entrypoint (cmd/controllers/app/server.go).
-- ===================================================================

namespace app

/-- The outcomes of the external steps `Run` performs, in program order:
config construction, health-check start, leader-election client construction,
hostname lookup and resource-lock construction. -/
structure RunEnv where
  buildConfig : Except String Unit
  startHealthz : Except String Unit
  enableLeaderElection : Bool
  newLeaderElectionClient : Except String Unit
  hostname : Except String String
  newResourceLock : Except String Unit

/-- Observable steps of `Run`: invoking the controller-start callback
directly, or entering the blocking leader-election loop. -/
inductive RunEvent where
  | runControllers
  | runOrDie
deriving DecidableEq

/-- The `Run` function of the controller server: every termination path
returns an error.  With leader election disabled the controller-start
callback runs at once and `Run` returns `finished without leader elect`
when it comes back; otherwise `RunOrDie` blocks, and if it ever returns the
function returns `lost lease`.  (The fatal process exit inside
`OnStoppedLeading` is not a return and is outside the model.) -/
def Run (env : RunEnv) : Except String Unit × List RunEvent :=
  match env.buildConfig with
  | Except.error e => (Except.error e, [])
  | Except.ok _ =>
    match env.startHealthz with
    | Except.error e => (Except.error e, [])
    | Except.ok _ =>
      if !env.enableLeaderElection then
        (Except.error "finished without leader elect", [RunEvent.runControllers])
      else
        match env.newLeaderElectionClient with
        | Except.error e => (Except.error e, [])
        | Except.ok _ =>
          match env.hostname with
          | Except.error e => (Except.error ("unable to get hostname: " ++ e), [])
          | Except.ok _ =>
            match env.newResourceLock with
            | Except.error e =>
              (Except.error ("couldn't create resource lock: " ++ e), [])
            | Except.ok _ => (Except.error "lost lease", [RunEvent.runOrDie])

/-- A run environment with leader election disabled and all steps succeeding. -/
def sampleRunEnvDisabled : RunEnv :=
  { buildConfig := Except.ok (), startHealthz := Except.ok (),
    enableLeaderElection := false, newLeaderElectionClient := Except.ok (),
    hostname := Except.ok "host", newResourceLock := Except.ok () }

end app

end Volcano

-- ===================================================================
-- Theorems.
-- ===================================================================

namespace Volcano

namespace ssh

theorem splitLines_ne_nil (cs : List Char) : splitLines cs ≠ [] := by
  induction cs with
  | nil => simp [splitLines]
  | cons c cs ih =>
    simp only [splitLines]
    by_cases hc : c = '\n'
    · simp [hc]
    · simp only [hc, if_false]
      cases h : splitLines cs with
      | nil => simp
      | cons l ls => simp

theorem splitLines_append_newline (xs : List Char) {ys : List Char}
    (h : '\n' ∉ xs) : splitLines (xs ++ '\n' :: ys) = xs :: splitLines ys := by
  induction xs with
  | nil => simp [splitLines]
  | cons c cs ih =>
    have hc : c ≠ '\n' := fun he => h (he ▸ List.mem_cons_self c cs)
    have hcs : '\n' ∉ cs := fun hm => h (List.mem_cons_of_mem c hm)
    simp only [List.cons_append, splitLines, hc, if_false, List.append_eq]
    rw [ih hcs]

theorem sshConfigHeader_data :
    sshConfigHeader.data =
      "StrictHostKeyChecking no".data ++ '\n' :: ("UserKnownHostsFile /dev/null".data ++ '\n' :: []) := rfl

theorem splitLines_header (ys : List Char) :
    splitLines (sshConfigHeader.data ++ ys) =
      "StrictHostKeyChecking no".data :: "UserKnownHostsFile /dev/null".data :: splitLines ys := by
  have hsplit : sshConfigHeader.data ++ ys =
      "StrictHostKeyChecking no".data ++ '\n' :: ("UserKnownHostsFile /dev/null".data ++ '\n' :: ys) := by
    rw [sshConfigHeader_data]
    simp only [List.append_assoc, List.cons_append, List.nil_append]
  rw [hsplit, splitLines_append_newline _ (by decide),
    splitLines_append_newline _ (by decide)]

theorem hostEntry_split (h s : String) (ys : List Char) :
    (hostEntry h s).data ++ ys =
      ("Host ".data ++ h.data) ++ '\n' ::
        (("  HostName ".data ++ (h.data ++ ('.' :: s.data))) ++ '\n' :: ys) := by
  have d1 : ("\n" : String).data = ['\n'] := rfl
  have d2 : ("." : String).data = ['.'] := rfl
  simp only [hostEntry, String.data_append, d1, d2, List.append_assoc,
    List.cons_append, List.nil_append, List.singleton_append]

theorem splitLines_hostEntry (h s : String) (ys : List Char)
    (hh : '\n' ∉ h.data) (hs : '\n' ∉ s.data) :
    splitLines ((hostEntry h s).data ++ ys) =
      ("Host ".data ++ h.data) ::
        ("  HostName ".data ++ (h.data ++ ('.' :: s.data))) :: splitLines ys := by
  have pf1 : '\n' ∉ "Host ".data ++ h.data := by
    simp only [List.mem_append, not_or]
    exact ⟨by decide, hh⟩
  have pf2 : '\n' ∉ "  HostName ".data ++ (h.data ++ ('.' :: s.data)) := by
    simp only [List.mem_append, List.mem_cons, not_or]
    exact ⟨by decide, hh, by decide, hs⟩
  rw [hostEntry_split, splitLines_append_newline _ pf1, splitLines_append_newline _ pf2]

theorem isHostLine_host (x : List Char) : isHostLine ("Host ".data ++ x) = true := rfl

theorem isHostLine_hostName (x : List Char) :
    isHostLine ("  HostName ".data ++ x) = false := rfl

theorem countHostEntries_three (h0 h1 h2 s0 s1 s2 : String)
    (hh0 : '\n' ∉ h0.data) (hh1 : '\n' ∉ h1.data) (hh2 : '\n' ∉ h2.data)
    (hs0 : '\n' ∉ s0.data) (hs1 : '\n' ∉ s1.data) (hs2 : '\n' ∉ s2.data) :
    countHostEntries
      (sshConfigHeader ++ hostEntry h0 s0 ++ hostEntry h1 s1 ++ hostEntry h2 s2) = 3 := by
  have hdata : (sshConfigHeader ++ hostEntry h0 s0 ++ hostEntry h1 s1 ++ hostEntry h2 s2).data =
      sshConfigHeader.data ++ ((hostEntry h0 s0).data ++
        ((hostEntry h1 s1).data ++ ((hostEntry h2 s2).data ++ ([] : List Char)))) := by
    simp [String.data_append]
  have hL1 : isHostLine ("StrictHostKeyChecking no".data) = false := rfl
  have hL2 : isHostLine ("UserKnownHostsFile /dev/null".data) = false := rfl
  rw [countHostEntries, hdata, splitLines_header,
    splitLines_hostEntry h0 s0 _ hh0 hs0, splitLines_hostEntry h1 s1 _ hh1 hs1,
    splitLines_hostEntry h2 s2 _ hh2 hs2]
  simp [splitLines, List.filter_cons, hL1, hL2, isHostLine_host, isHostLine_hostName, isHostLine]

theorem countHostEntries_one (h s : String)
    (hh : '\n' ∉ h.data) (hs : '\n' ∉ s.data) :
    countHostEntries (sshConfigHeader ++ hostEntry h s) = 1 := by
  have hdata : (sshConfigHeader ++ hostEntry h s).data =
      sshConfigHeader.data ++ ((hostEntry h s).data ++ ([] : List Char)) := by
    simp [String.data_append]
  have hL1 : isHostLine ("StrictHostKeyChecking no".data) = false := rfl
  have hL2 : isHostLine ("UserKnownHostsFile /dev/null".data) = false := rfl
  rw [countHostEntries, hdata, splitLines_header, splitLines_hostEntry h s _ hh hs]
  simp [splitLines, List.filter_cons, hL1, hL2, isHostLine_host, isHostLine_hostName, isHostLine]

theorem makePodName_data (jn tn : String) (i : Nat) :
    (makePodName jn tn i).data = jn.data ++ '-' :: (tn.data ++ '-' :: (toString i).data) := by
  have d : ("-" : String).data = ['-'] := rfl
  simp only [makePodName, String.data_append, d, List.append_assoc,
    List.cons_append, List.nil_append, List.singleton_append]

theorem nl_not_mem_makePodName (jn tn : String) (i : Nat)
    (h1 : '\n' ∉ jn.data) (h2 : '\n' ∉ tn.data) (h3 : '\n' ∉ (toString i).data) :
    '\n' ∉ (makePodName jn tn i).data := by
  rw [makePodName_data]
  simp only [List.mem_append, List.mem_cons, not_or]
  exact ⟨h1, by decide, h2, by decide, h3⟩

theorem taskLoop_zero (jn : String) (ts : TaskSpec) (c : String) (i : Nat) :
    taskLoop jn ts c 0 i = c := rfl

theorem taskLoop_cont (jn : String) (ts : TaskSpec) (hh : ts.template.hostname = "")
    (c : String) (f i : Nat) :
    taskLoop jn ts c (f + 1) i =
      taskLoop jn ts
        (c ++ hostEntry (makePodName jn ts.name i)
          (if ts.template.subdomain = "" then jn else ts.template.subdomain)) f (i + 1) := by
  simp [taskLoop, hh, hostEntry, String.append_assoc]

theorem taskLoop_break (jn : String) (ts : TaskSpec) (hh : ts.template.hostname ≠ "")
    (c : String) (f i : Nat) :
    taskLoop jn ts c (f + 1) i =
      c ++ hostEntry ts.template.hostname
        (if ts.template.subdomain = "" then jn else ts.template.subdomain) := by
  simp [taskLoop, hh, hostEntry, String.append_assoc]

theorem generateSSHConfig_singleTask (job : Job) (ts : TaskSpec)
    (htasks : job.tasks = [ts]) :
    generateSSHConfig job = taskLoop job.name ts sshConfigHeader ts.replicas.toNat 0 := by
  simp [generateSSHConfig, htasks]

/-- C1: for a job with exactly one task, replicas = 3, no explicit hostname or
subdomain on the task's template (and names free of line breaks, as cluster API
names are), the generated connectivity-config text contains exactly 3 Host
entries; their hostnames are the deterministic pod-name pattern at replica
indices 0, 1, 2, and each entry maps the effective hostname to
`{effective hostname}.{subdomain}` with subdomain equal to the job's name. -/
theorem generateSSHConfig_three_hosts (job : Job) (ts : TaskSpec)
    (htasks : job.tasks = [ts]) (hrep : ts.replicas = 3)
    (hh : ts.template.hostname = "") (hsub : ts.template.subdomain = "")
    (hjn : '\n' ∉ job.name.data) (htn : '\n' ∉ ts.name.data) :
    countHostEntries (generateSSHConfig job) = 3 ∧
    generateSSHConfig job =
      sshConfigHeader ++ hostEntry (makePodName job.name ts.name 0) job.name
        ++ hostEntry (makePodName job.name ts.name 1) job.name
        ++ hostEntry (makePodName job.name ts.name 2) job.name := by
  have hr : ts.replicas.toNat = 3 := by rw [hrep]; rfl
  have htext : generateSSHConfig job =
      sshConfigHeader ++ hostEntry (makePodName job.name ts.name 0) job.name
        ++ hostEntry (makePodName job.name ts.name 1) job.name
        ++ hostEntry (makePodName job.name ts.name 2) job.name := by
    have h0 := generateSSHConfig_singleTask job ts htasks
    rw [hr] at h0
    have s1 : taskLoop job.name ts sshConfigHeader 3 0 =
        taskLoop job.name ts
          (sshConfigHeader ++ hostEntry (makePodName job.name ts.name 0) job.name) 2 1 := by
      have := taskLoop_cont job.name ts hh sshConfigHeader 2 0
      simpa [hsub] using this
    have s2 : taskLoop job.name ts
        (sshConfigHeader ++ hostEntry (makePodName job.name ts.name 0) job.name) 2 1 =
        taskLoop job.name ts
          (sshConfigHeader ++ hostEntry (makePodName job.name ts.name 0) job.name
            ++ hostEntry (makePodName job.name ts.name 1) job.name) 1 2 := by
      have := taskLoop_cont job.name ts hh
        (sshConfigHeader ++ hostEntry (makePodName job.name ts.name 0) job.name) 1 1
      simpa [hsub] using this
    have s3 : taskLoop job.name ts
        (sshConfigHeader ++ hostEntry (makePodName job.name ts.name 0) job.name
          ++ hostEntry (makePodName job.name ts.name 1) job.name) 1 2 =
        taskLoop job.name ts
          (sshConfigHeader ++ hostEntry (makePodName job.name ts.name 0) job.name
            ++ hostEntry (makePodName job.name ts.name 1) job.name
            ++ hostEntry (makePodName job.name ts.name 2) job.name) 0 3 := by
      have := taskLoop_cont job.name ts hh
        (sshConfigHeader ++ hostEntry (makePodName job.name ts.name 0) job.name
          ++ hostEntry (makePodName job.name ts.name 1) job.name) 0 2
      simpa [hsub] using this
    rw [h0, s1, s2, s3, taskLoop_zero]
  refine ⟨?_, htext⟩
  rw [htext]
  exact countHostEntries_three _ _ _ _ _ _
    (nl_not_mem_makePodName _ _ 0 hjn htn (by decide))
    (nl_not_mem_makePodName _ _ 1 hjn htn (by decide))
    (nl_not_mem_makePodName _ _ 2 hjn htn (by decide))
    hjn hjn hjn

/-- C2: for a job whose single task declares an explicit hostname and has
replicas = 3 (names free of line breaks), the generated connectivity-config
text contains exactly 1 Host entry: the per-replica loop terminates after the
first replica because the explicit hostname is non-empty. -/
theorem generateSSHConfig_explicit_hostname (job : Job) (ts : TaskSpec)
    (htasks : job.tasks = [ts]) (hrep : ts.replicas = 3)
    (hh : ts.template.hostname ≠ "")
    (hnh : '\n' ∉ ts.template.hostname.data)
    (hjn : '\n' ∉ job.name.data) (hns : '\n' ∉ ts.template.subdomain.data) :
    countHostEntries (generateSSHConfig job) = 1 ∧
    generateSSHConfig job =
      sshConfigHeader ++ hostEntry ts.template.hostname
        (if ts.template.subdomain = "" then job.name else ts.template.subdomain) := by
  have hr : ts.replicas.toNat = 3 := by rw [hrep]; rfl
  have htext : generateSSHConfig job =
      sshConfigHeader ++ hostEntry ts.template.hostname
        (if ts.template.subdomain = "" then job.name else ts.template.subdomain) := by
    have h0 := generateSSHConfig_singleTask job ts htasks
    rw [hr] at h0
    rw [h0]
    exact taskLoop_break job.name ts hh sshConfigHeader 2 0
  have hsd : '\n' ∉ (if ts.template.subdomain = "" then job.name
      else ts.template.subdomain).data := by
    split
    · exact hjn
    · exact hns
  exact ⟨by rw [htext]; exact countHostEntries_one _ _ hnh hsd, htext⟩

/-- Witness for C1 at a concrete job. -/
theorem generateSSHConfig_three_hosts_witness :
    countHostEntries (generateSSHConfig sampleJob) = 3 ∧
    generateSSHConfig sampleJob =
      sshConfigHeader ++ hostEntry (makePodName "job" "t" 0) "job"
        ++ hostEntry (makePodName "job" "t" 1) "job"
        ++ hostEntry (makePodName "job" "t" 2) "job" :=
  generateSSHConfig_three_hosts sampleJob sampleTaskPlain rfl rfl rfl rfl
    (by decide) (by decide)

/-- Witness for C2 at a concrete job with an explicit hostname. -/
theorem generateSSHConfig_explicit_hostname_witness :
    countHostEntries (generateSSHConfig sampleJobNamed) = 1 ∧
    generateSSHConfig sampleJobNamed = sshConfigHeader ++ hostEntry "h" "job" :=
  generateSSHConfig_explicit_hostname sampleJobNamed sampleTaskNamed rfl rfl
    (by decide) (by decide) (by decide) (by decide)

/-- C3: when the job's controlled-resources marker for the ssh plugin is
already set, `OnJobAdd` returns ok, leaves the job unchanged, and performs no
external effect (no key generation, no secret creation). -/
theorem OnJobAdd_marked_noop (env : CryptoEnv) (store : SecretStore) (job : Job)
    (h : lookupCR job.controlledResources ("plugin-" ++ Name) = Name) :
    OnJobAdd env store job = (Except.ok (), job, []) := by
  simp [OnJobAdd, h]

/-- Witness for C3 at a concrete marked job. -/
theorem OnJobAdd_marked_noop_witness :
    OnJobAdd sampleCrypto sampleStore sampleJobMarked =
      (Except.ok (), sampleJobMarked, []) :=
  OnJobAdd_marked_noop sampleCrypto sampleStore sampleJobMarked (by decide)

/-- C4: the secret name is `{jobName}-{jobUID}-{pluginName}` and depends on
nothing but the job name, the job uid and the plugin name. -/
theorem secretName_deterministic (j1 j2 : Job)
    (hn : j1.name = j2.name) (hu : j1.uid = j2.uid) :
    secretName j1 = j1.name ++ "-" ++ j1.uid ++ "-" ++ Name ∧
    secretName j1 = secretName j2 := by
  refine ⟨rfl, ?_⟩
  simp [secretName, hn, hu]

/-- Witness for C4: two jobs agreeing on name and uid (but not on the rest)
get the same secret name, of the stated shape. -/
theorem secretName_deterministic_witness :
    secretName sampleJob = "job-uid1-ssh" ∧
    secretName sampleJob = secretName sampleJobMarked := by
  exact secretName_deterministic sampleJob sampleJobMarked rfl rfl

theorem sum_map_length_succ {α : Type} (l : List α) (f : α → Nat) :
    (l.map (fun a => f a + 1)).sum = (l.map f).sum + l.length := by
  induction l with
  | nil => rfl
  | cons a t ih => simp [List.map_cons, List.sum_cons, ih]; omega

/-- C5: `OnPodCreate`'s mutation appends exactly one volume to the pod and
exactly one volume mount to each of the pod's containers, the volume and all
the mounts referencing the credential-bundle name derived from the job. -/
theorem mountRsaKey_fanout (sp : sshPlugin) (pod : Pod) (job : Job) :
    ∃ v : Volume,
      (mountRsaKey sp pod job).volumes = pod.volumes ++ [v] ∧
      v.name = secretName job ∧
      (mountRsaKey sp pod job).containers = pod.containers.map (fun c =>
        { c with volumeMounts := c.volumeMounts ++
            [{ mountPath := sp.sshKeyFilePath, subPath := SSHRelativePath,
               name := secretName job }] }) ∧
      (mountRsaKey sp pod job).volumes.length = pod.volumes.length + 1 ∧
      ((mountRsaKey sp pod job).containers.map (fun c => c.volumeMounts.length)).sum =
        ((pod.containers.map (fun c => c.volumeMounts.length)).sum) + pod.containers.length ∧
      (mountRsaKey sp pod job).containers.length = pod.containers.length := by
  refine ⟨_, rfl, rfl, rfl, by simp [mountRsaKey], ?_, by simp [mountRsaKey]⟩
  simp only [mountRsaKey, List.map_map]
  have hcomp : ((fun c : Container => c.volumeMounts.length) ∘ (fun c : Container =>
      { c with volumeMounts := c.volumeMounts ++
          [{ mountPath := sp.sshKeyFilePath, subPath := SSHRelativePath,
             name := secretName job }] })) =
      (fun c : Container => c.volumeMounts.length + 1) := by
    funext c
    simp
  rw [hcomp]
  exact sum_map_length_succ pod.containers fun c => c.volumeMounts.length

/-- C6: the appended volume exposes exactly four keyed entries, the private
key, the public key, an authorized-keys entry sourced from the same public-key
key, and the connectivity-config entry; the secret data produced by
`generateRsaKey` maps the config key to the generated config text. -/
theorem mountRsaKey_volume_items (sp : sshPlugin) (pod : Pod) (job : Job) :
    ∃ v : Volume, ∃ src : SecretVolumeSource,
      (mountRsaKey sp pod job).volumes = pod.volumes ++ [v] ∧
      v.secret = some src ∧
      src.secretName = secretName job ∧
      src.items = [
        { key := SSHPrivateKey, path := SSHRelativePath ++ "/" ++ SSHPrivateKey },
        { key := SSHPublicKey, path := SSHRelativePath ++ "/" ++ SSHPublicKey },
        { key := SSHPublicKey, path := SSHRelativePath ++ "/" ++ SSHAuthorizedKeys },
        { key := SSHConfig, path := SSHRelativePath ++ "/" ++ SSHConfig }] ∧
      src.items.length = 4 ∧
      (∀ kp : RsaKeyPair,
        generateRsaKey { genKeyPair := Except.ok kp } job =
          Except.ok [(SSHPrivateKey, kp.privatePem), (SSHPublicKey, kp.publicAuthorized),
            (SSHConfig, generateSSHConfig job)]) :=
  ⟨_, _, rfl, rfl, rfl, rfl, rfl, fun _ => rfl⟩

/-- C7: with the marker unset, a failure of key generation or of secret
persistence is returned as the error, and the job (hence its marker) is left
exactly as before the call. -/
theorem OnJobAdd_failure_unmarked (env : CryptoEnv) (store : SecretStore) (job : Job)
    (hm : lookupCR job.controlledResources ("plugin-" ++ Name) ≠ Name) :
    (∀ e, env.genKeyPair = Except.error e →
      OnJobAdd env store job = (Except.error e, job, [Effect.genRsaKey])) ∧
    (∀ kp e, env.genKeyPair = Except.ok kp →
      store.createSecret job
        [(SSHPrivateKey, kp.privatePem), (SSHPublicKey, kp.publicAuthorized),
         (SSHConfig, generateSSHConfig job)] (secretName job) = Except.error e →
      OnJobAdd env store job =
        (Except.error ("create secret for job <" ++ job.ns ++ "/" ++ job.name
            ++ "> with ssh plugin failed for " ++ e), job,
          [Effect.genRsaKey, Effect.createSecret (secretName job)])) := by
  constructor
  · intro e he
    simp [OnJobAdd, beq_iff_eq, hm, generateRsaKey, he]
  · intro kp e hk hc
    simp [OnJobAdd, beq_iff_eq, hm, generateRsaKey, hk, hc]

/-- Witness for C7: failing key generation on an unmarked job. -/
theorem OnJobAdd_failure_unmarked_witness :
    OnJobAdd sampleCryptoFail sampleStore sampleJob =
      (Except.error "entropy failure", sampleJob, [Effect.genRsaKey]) :=
  (OnJobAdd_failure_unmarked sampleCryptoFail sampleStore sampleJob (by decide)).1
    "entropy failure" rfl

/-- C8: an argument list that sets `no-root` without overriding
`ssh-key-file-path` yields the mount location
`{ConfigMapMountPath}/{SSHRelativePath}` and the permissive volume mode 0755;
an argument list setting neither option keeps the canonical root SSH
directory and the restrictive mode 0600. -/
theorem New_noRoot_path_mode (args : List String) (pod : Pod) (job : Job) :
    ((parseFlags (initialPlugin args) args).noRoot = true →
      (parseFlags (initialPlugin args) args).sshKeyFilePath = SSHAbsolutePath →
      (New args).sshKeyFilePath = ConfigMapMountPath ++ "/" ++ SSHRelativePath ∧
      ∃ v src, (mountRsaKey (New args) pod job).volumes = pod.volumes ++ [v] ∧
        v.secret = some src ∧ src.defaultMode = 0o755) ∧
    ((parseFlags (initialPlugin args) args).noRoot = false →
      (parseFlags (initialPlugin args) args).sshKeyFilePath = SSHAbsolutePath →
      (New args).sshKeyFilePath = SSHAbsolutePath ∧
      ∃ v src, (mountRsaKey (New args) pod job).volumes = pod.volumes ++ [v] ∧
        v.secret = some src ∧ src.defaultMode = 0o600) := by
  constructor
  · intro h1 h2
    have hargs : (initialPlugin args).pluginArguments = args := rfl
    have hNew : (New args).sshKeyFilePath = ConfigMapMountPath ++ "/" ++ SSHRelativePath := by
      simp [New, addFlags, hargs, h1, h2]
    refine ⟨hNew, _, _, rfl, rfl, ?_⟩
    rw [hNew, if_pos (by decide)]
  · intro h1 h2
    have hargs : (initialPlugin args).pluginArguments = args := rfl
    have hNew : (New args).sshKeyFilePath = SSHAbsolutePath := by
      simp [New, addFlags, hargs, h1, h2]
    refine ⟨hNew, _, _, rfl, rfl, ?_⟩
    rw [hNew, if_neg (by decide)]

/-- Witness for C8 with the argument lists `["--no-root"]` and `[]`. -/
theorem New_noRoot_path_mode_witness :
    ((New ["--no-root"]).sshKeyFilePath = ConfigMapMountPath ++ "/" ++ SSHRelativePath ∧
      ∃ v src, (mountRsaKey (New ["--no-root"]) samplePod sampleJob).volumes =
          samplePod.volumes ++ [v] ∧
        v.secret = some src ∧ src.defaultMode = 0o755) ∧
    ((New []).sshKeyFilePath = SSHAbsolutePath ∧
      ∃ v src, (mountRsaKey (New []) samplePod sampleJob).volumes =
          samplePod.volumes ++ [v] ∧
        v.secret = some src ∧ src.defaultMode = 0o600) :=
  ⟨(New_noRoot_path_mode ["--no-root"] samplePod sampleJob).1 (by decide) (by decide),
   (New_noRoot_path_mode [] samplePod sampleJob).2 (by decide) (by decide)⟩

/-- C10: `OnPodCreate` always returns nil, for every plugin state, pod and
job; the pod mutation is exactly `mountRsaKey`. -/
theorem OnPodCreate_never_fails (sp : sshPlugin) (pod : Pod) (job : Job) :
    (OnPodCreate sp pod job).1 = Except.ok () ∧
    (OnPodCreate sp pod job).2 = mountRsaKey sp pod job :=
  ⟨rfl, rfl⟩

end ssh

namespace app

/-- C9: every return of `Run` carries a non-nil error; with leader election
disabled (and startup succeeding) the controller-start callback is invoked
and `Run` returns the `finished without leader elect` error when it returns. -/
theorem Run_always_error (env : RunEnv) :
    (∃ e, (Run env).1 = Except.error e) ∧
    (env.buildConfig = Except.ok () → env.startHealthz = Except.ok () →
      env.enableLeaderElection = false →
      Run env = (Except.error "finished without leader elect", [RunEvent.runControllers])) := by
  constructor
  · rcases hb : env.buildConfig with e | u
    · exact ⟨e, by simp [Run, hb]⟩
    · rcases hh : env.startHealthz with e | u
      · exact ⟨e, by simp [Run, hb, hh]⟩
      · cases hle : env.enableLeaderElection
        · exact ⟨"finished without leader elect", by simp [Run, hb, hh, hle]⟩
        · rcases hc : env.newLeaderElectionClient with e | u
          · exact ⟨e, by simp [Run, hb, hh, hle, hc]⟩
          · rcases hn : env.hostname with e | hn2
            · exact ⟨"unable to get hostname: " ++ e, by simp [Run, hb, hh, hle, hc, hn]⟩
            · rcases hr : env.newResourceLock with e | u
              · exact ⟨"couldn't create resource lock: " ++ e,
                  by simp [Run, hb, hh, hle, hc, hn, hr]⟩
              · exact ⟨"lost lease", by simp [Run, hb, hh, hle, hc, hn, hr]⟩
  · intro h1 h2 h3
    simp [Run, h1, h2, h3]

/-- Witness for C9 in the election-disabled environment. -/
theorem Run_always_error_witness :
    Run sampleRunEnvDisabled =
      (Except.error "finished without leader elect", [RunEvent.runControllers]) :=
  (Run_always_error sampleRunEnvDisabled).2 rfl rfl rfl

end app

end Volcano
